import Mathlib

/-!
Shallow embedding of the demo-node-app service (Express + TypeScript) and
proofs about its readiness aggregator, authentication gate, self-test
orchestrator, CRUD semantics and error boundaries.

Source files embedded:
- `src/server.ts` : `isPublicPath`, `authMiddleware`, `GET /readyz`,
  HTTP CRUD handlers, `waitForPostgres`, `start`, `runSelfTest`.
- `src/lib/aws.ts` : `checkS3`, `putS3Text`, `getS3Text`, `deleteS3Object`.
- `src/lib/db.ts` : `checkDb`, `createItem`, `updateItem`, `deleteItem`.
- `src/lib/redis.ts` : `checkRedis`, lazy-connect guard.

Fallible SDK/client calls are modelled as `Except String` values supplied by
the environment (an oracle for what the remote store did on that call);
JavaScript `try`/`catch` becomes a total `match` on that `Except`.
-/

namespace DemoNodeApp

/-! ## Authentication gate (`src/server.ts` lines 84-129) -/

/-- Process configuration relevant to the auth gate:
`APP_AUTH_SECRET` (default `hunter2`) and `READYZ_PUBLIC`. -/
structure AuthConfig where
  secret : String
  readyzPublic : Bool
deriving DecidableEq, Repr

/-- An inbound HTTP request as the auth middleware observes it:
method, path, optional `Authorization` header and optional `token`
query parameter. -/
structure Request where
  method : String
  path : String
  authHeader : Option String
  queryToken : Option String
deriving DecidableEq, Repr

/-- Outcome of the auth middleware on a request. -/
inductive AuthResult
  | publicPass
  | allowed (username : String)
  | unauthorized
deriving DecidableEq, Repr

/-- `isPublicPath` from `src/server.ts`: health probe, robots, favicon,
optionally `/readyz`, and `GET /`. -/
def isPublicPath (cfg : AuthConfig) (method path : String) : Bool :=
  if path == "/healthz" then true
  else if path == "/robots.txt" then true
  else if path == "/favicon.ico" then true
  else if cfg.readyzPublic && path == "/readyz" then true
  else if method == "GET" && path == "/" then true
  else false

/-- Default username used by the gate (`'loftwah'` in the source). -/
def AUTH_DEFAULT_USER : String := "loftwah"

/-! JavaScript string primitives used by the gate, modelled on the
character list underlying the string so that every definition reduces. -/

/-- JavaScript `s.startsWith(p)`. -/
def jsStartsWith (s p : String) : Bool := p.toList.isPrefixOf s.toList

/-- JavaScript `s.includes(c)` for a single character. -/
def jsContainsChar (s : String) (c : Char) : Bool := s.toList.contains c

/-- JavaScript `s.slice(n)` (chars dropped from the front). -/
def jsDrop (s : String) (n : Nat) : String := String.mk (s.toList.drop n)

/-- Whitespace for JavaScript `trim` (space, tab, newline, carriage
return). -/
def isWsChar (c : Char) : Bool :=
  c == ' ' || c == '\t' || c == '\n' || c == '\r'

/-- JavaScript `s.trim()`. -/
def jsTrim (s : String) : String :=
  String.mk (((s.toList.dropWhile isWsChar).reverse.dropWhile isWsChar).reverse)

/-- Models `(req.query.token as string | undefined) || undefined`:
a falsy (empty) token collapses to `undefined`. -/
def normalizeQueryToken (q : Option String) : Option String :=
  match q with
  | some t => if t == "" then none else some t
  | none => none

/-- `authHeader.slice(7).trim()` applied after a `Bearer ` match. -/
def bearerTokenOf (h : String) : String := jsTrim (jsDrop h 7)

/-- JavaScript `lastIndexOf(':')` split: the part before the last colon and
the part after it (`slice(0, idx)`, `slice(idx + 1)`). Only called when the
string contains a colon. -/
def splitAtLastColon (s : String) : String × String :=
  let cs := s.toList
  match cs.reverse.findIdx? (fun c => c == ':') with
  | none => (s, "")
  | some j =>
    let i := cs.length - 1 - j
    (String.mk (cs.take i), String.mk (cs.drop (i + 1)))

/-- The `if (!authorized && authHeader) { ... }` block of `authMiddleware`:
given a non-empty header, decide authorization and the captured username.
`Bearer `-prefixed headers are compared after slice+trim; otherwise a header
containing `:` is split at its last colon and the tail compared with the
secret, the head becoming the username (falling back to the default when
empty). -/
def headerAuth (secret : String) (h : String) : Bool × Option String :=
  if h == "" then (false, none)
  else if jsStartsWith h "Bearer " then
    (bearerTokenOf h == secret, none)
  else if jsContainsChar h ':' then
    let p := splitAtLastColon h
    if p.2 == secret then
      (true, some (if p.1 == "" then AUTH_DEFAULT_USER else p.1))
    else (false, none)
  else (false, none)

/-- `authMiddleware` from `src/server.ts`: public paths pass; then the
`token` query parameter is compared with the secret; then the
`Authorization` header (only when not already authorized); an unauthorized
request gets a 401, an authorized one proceeds with the captured username
or the default one. -/
def authMiddleware (cfg : AuthConfig) (req : Request) : AuthResult :=
  if isPublicPath cfg req.method req.path then .publicPass
  else
    let queryOk : Bool :=
      match normalizeQueryToken req.queryToken with
      | some t => t == cfg.secret
      | none => false
    if queryOk then .allowed AUTH_DEFAULT_USER
    else
      match req.authHeader with
      | some h =>
        let r := headerAuth cfg.secret h
        if r.1 then .allowed (r.2.getD AUTH_DEFAULT_USER) else .unauthorized
      | none => .unauthorized

/-- Bearer credential matching the shared secret (claim vocabulary). -/
def matchesBearer (secret h : String) : Bool :=
  jsStartsWith h "Bearer " && bearerTokenOf h == secret

/-- Basic-style `user:secret` credential matching the shared secret
(claim vocabulary): not a Bearer header, contains a colon, and the part
after the last colon equals the secret. -/
def matchesBasic (secret h : String) : Bool :=
  !(jsStartsWith h "Bearer ") && jsContainsChar h ':' &&
    (splitAtLastColon h).2 == secret

/-- `token` query parameter matching the shared secret. -/
def matchesQuery (secret : String) (q : Option String) : Bool :=
  match normalizeQueryToken q with
  | some t => t == secret
  | none => false

/-- The acceptance set of the gate, stated in the claim vocabulary:
query token, bearer token, or basic-style credential equal to the single
configured shared secret. -/
def acceptedCred (secret : String) (req : Request) : Bool :=
  matchesQuery secret req.queryToken ||
    (match req.authHeader with
     | some h => matchesBearer secret h || matchesBasic secret h
     | none => false)

/-- Modelled from the spec: the acceptance predicate exactly as the claim
words it — a bearer token or basic-style credential matching the shared
secret, or presentation of the hardcoded demo token (`demo`, per the
repository README: `Bearer demo`). The `token` query parameter channel is
deliberately absent, as the claim does not mention it. -/
def specAuthAccepts (secret : String) (req : Request) : Bool :=
  (match req.authHeader with
   | some h => matchesBearer secret h || matchesBasic secret h
   | none => false)
  || req.authHeader == some "Bearer demo" || req.queryToken == some "demo"

/-! ## Readiness aggregator (`GET /readyz`, `src/server.ts` lines 208-224) -/

/-- The `/readyz` verdict: `s3Ok` is the probe result when `S3_BUCKET` is
configured and `false` otherwise; the verdict is
`dbOk && (!S3_BUCKET || s3Ok) && redisOk ? 'ready' : 'degraded'`. -/
def readyzStatus (bucket : String) (s3Probe dbOk redisOk : Bool) : String :=
  let s3Ok := if bucket == "" then false else s3Probe
  if dbOk && (bucket == "" || s3Ok) && redisOk then "ready" else "degraded"

/-! ## Liveness probes (`src/lib/aws.ts`, `src/lib/db.ts`, `src/lib/redis.ts`)

Each probe wraps its client calls in a `try`/`catch` that maps any thrown
error to `false`. The `xBody` definitions are the code inside the `try`;
the probe itself is the catch of its body. -/

/-- Body of `checkS3`: `s3Client.send(new HeadBucketCommand(...))` then
`return true`; the send may throw. -/
def checkS3Body (send : Except String Unit) : Except String Bool :=
  match send with
  | .ok _ => .ok true
  | .error e => .error e

/-- `checkS3` from `src/lib/aws.ts`: any thrown error is caught and yields
`false`. -/
def checkS3 (send : Except String Unit) : Except String Bool :=
  match checkS3Body send with
  | .ok b => .ok b
  | .error _ => .ok false

/-- Body of `checkDb`: `pool.connect()` then `SELECT 1` then `release`,
returning `true`; either step may throw. -/
def checkDbBody (connect query : Except String Unit) : Except String Bool :=
  match connect with
  | .error e => .error e
  | .ok _ =>
    match query with
    | .error e => .error e
    | .ok _ => .ok true

/-- `checkDb` from `src/lib/db.ts`: any thrown error is caught and yields
`false`. -/
def checkDb (connect query : Except String Unit) : Except String Bool :=
  match checkDbBody connect query with
  | .ok b => .ok b
  | .error _ => .ok false

/-- Body of `checkRedis`: connect when the client status is unset or
`end`, then `ping`, returning whether the reply is `PONG`; connect and
ping may throw. -/
def checkRedisBody (status : String) (connect : Except String Unit)
    (ping : Except String String) : Except String Bool :=
  match (if status == "" || status == "end" then connect else .ok ()) with
  | .error e => .error e
  | .ok _ =>
    match ping with
    | .error e => .error e
    | .ok pong => .ok (pong == "PONG")

/-- `checkRedis` from `src/lib/redis.ts`: any thrown error is caught and
yields `false`. -/
def checkRedis (status : String) (connect : Except String Unit)
    (ping : Except String String) : Except String Bool :=
  match checkRedisBody status connect ping with
  | .ok b => .ok b
  | .error _ => .ok false

/-! ## Relational items table (`src/lib/db.ts`)

The `items` table — `id UUID PRIMARY KEY, name TEXT, value JSONB,
created_at TIMESTAMPTZ DEFAULT now()` — is modelled as a list of rows;
`value` is opaque text, `created_at` a numeric server timestamp. -/

/-- A row of the `items` table. -/
structure Item where
  id : String
  name : String
  value : String
  created_at : Nat
deriving DecidableEq, Repr

/-- `createItem`: `INSERT INTO items (id, name, value) VALUES (...)
RETURNING ...`; `created_at` takes the server default `now()`. Returns the
new table and the inserted row. -/
def createItem (idv namev valuev : String) (now : Nat) (table : List Item) :
    List Item × Item :=
  let it : Item := { id := idv, name := namev, value := valuev, created_at := now }
  (table ++ [it], it)

/-- `getItem`: `SELECT ... WHERE id = $1`, first row or null. -/
def getItem (idv : String) (table : List Item) : Option Item :=
  table.find? (fun r => r.id == idv)

/-- `updateItem`: `UPDATE items SET name=$2, value=$3 WHERE id=$1
RETURNING ...`; only `name` and `value` are assigned. Returns the new
table and the updated row (or none when no row matched). -/
def updateItem (idv namev valuev : String) (table : List Item) :
    List Item × Option Item :=
  (table.map (fun r =>
      if r.id == idv then { r with name := namev, value := valuev } else r),
   (table.find? (fun r => r.id == idv)).map
     (fun r => { r with name := namev, value := valuev }))

/-- `deleteItem`: `DELETE FROM items WHERE id=$1`, returning
`rowCount > 0`. Returns the new table and that boolean. -/
def deleteItem (idv : String) (table : List Item) : List Item × Bool :=
  let affected := table.countP (fun r => r.id == idv)
  (table.filter (fun r => !(r.id == idv)), affected > 0)

/-! ## Cache store (`ioredis` key/value view)

The cache is an association list of string keys and values; `DEL key`
returns the number of removed keys, and the `DELETE /cache/:key` handler
responds `{ok: n > 0}`. -/

/-- Number of keys removed by `redis.del(key)` on the given store. -/
def redisDelCount (k : String) (cache : List (String × String)) : Nat :=
  cache.countP (fun e => e.1 == k)

/-- The cache after `redis.del(key)`. -/
def redisDelStore (k : String) (cache : List (String × String)) :
    List (String × String) :=
  cache.filter (fun e => !(e.1 == k))

/-- The `ok` field of the `DELETE /cache/:key` response:
`{ ok: n > 0 }` where `n` is the `DEL` reply. -/
def cacheDeleteRespOk (k : String) (cache : List (String × String)) : Bool :=
  redisDelCount k cache > 0

/-- The `ok` field of the `DELETE /db/items/:id` response:
`{ ok }` where `ok` is the `deleteItem` result. -/
def dbDeleteRespOk (idv : String) (table : List Item) : Bool :=
  (deleteItem idv table).2

/-! ## Self-test orchestrator (`runSelfTest`, `src/server.ts` lines 397-485)

Every store operation that can throw is an `Except String` oracle supplied
by the environment; each per-store sequence is a body (the code inside its
`try`) that can fail carrying the trace of operations attempted so far, and
a run (the `catch`) that turns the body outcome into the slot of the
result. -/

/-- Result slot for the S3 sequence of the self-test. -/
structure S3Slot where
  ok : Bool
  bucket : Option String
  key : Option String
  error : Option String
deriving DecidableEq, Repr

/-- Result slot for the relational sequence of the self-test. -/
structure DbSlot where
  ok : Bool
  id : Option String
  error : Option String
deriving DecidableEq, Repr

/-- Result slot for the cache sequence of the self-test. -/
structure RedisSlot where
  ok : Bool
  key : Option String
  error : Option String
deriving DecidableEq, Repr

/-- `SelfTestResult` from `src/server.ts`. -/
structure SelfTestResult where
  s3 : S3Slot
  db : DbSlot
  redis : RedisSlot
deriving DecidableEq, Repr

/-- A store operation attempted by the self-test (for the execution
trace). -/
inductive StOp
  | putS3
  | getS3
  | delS3
  | createDb
  | getDb
  | updateDb
  | deleteDb
  | connectRedis
  | setRedis
  | getRedis
  | delRedis
deriving DecidableEq, Repr

/-- `getS3Text` from `src/lib/aws.ts`: the raw `GetObjectCommand` send is
wrapped in a `try`/`catch` that turns any thrown error into `null`. -/
def getS3Text (raw : Except String String) : Option String :=
  match raw with
  | .ok s => some s
  | .error _ => none

/-- Environment of the S3 sequence: bucket configuration, the clock values
used for the object key and the timestamped body, and the outcomes of the
three S3 calls. -/
structure S3Env where
  bucket : String
  keyTime : Nat
  isoTime : String
  putR : Except String Unit
  getRaw : Except String String
  delR : Except String Unit

/-- `app/selftest-${Date.now()}.txt`. -/
def s3TestKey (env : S3Env) : String :=
  "app/selftest-" ++ toString env.keyTime ++ ".txt"

/-- `hello from loftwah selftest ${new Date().toISOString()}`. -/
def s3TestBody (env : S3Env) : String :=
  "hello from loftwah selftest " ++ env.isoTime

/-- The S3 `try` block: put, get back (via `getS3Text`, which never
throws), compare byte-for-byte with what was written (throwing
`s3 content mismatch` otherwise), delete. Failure carries the trace of
operations attempted before the error. -/
def s3Body (env : S3Env) : Except (String × List StOp) (List StOp) :=
  match env.putR with
  | .error e => .error (e, [.putS3])
  | .ok _ =>
    if getS3Text env.getRaw == some (s3TestBody env) then
      match env.delR with
      | .error e => .error (e, [.putS3, .getS3, .delS3])
      | .ok _ => .ok [.putS3, .getS3, .delS3]
    else .error ("s3 content mismatch", [.putS3, .getS3])

/-- The S3 sequence with its failure boundary: unconfigured bucket records
the configuration-missing error with no attempt; otherwise the body runs
and any error is caught into the slot. -/
def s3Run (env : S3Env) : S3Slot × List StOp :=
  if env.bucket == "" then
    ({ ok := false, bucket := none, key := none,
       error := some "S3_BUCKET not configured" }, [])
  else
    match s3Body env with
    | .ok tr =>
      ({ ok := true, bucket := some env.bucket, key := some (s3TestKey env),
         error := none }, tr)
    | .error (e, tr) =>
      ({ ok := false, bucket := some env.bucket, key := some (s3TestKey env),
         error := some e }, tr)

/-- Environment of the relational sequence: the generated UUID and the
outcomes of the four database calls. -/
structure DbEnv where
  freshId : String
  createR : Except String Item
  getR : Except String (Option Item)
  updateR : Except String (Option Item)
  deleteR : Except String Bool

/-- The relational `try` block: create, read back (throwing
`db get failed` when absent), update (result unused), delete (throwing
`db delete failed` when zero rows were affected). -/
def dbBody (env : DbEnv) : Except (String × List StOp) (List StOp) :=
  match env.createR with
  | .error e => .error (e, [.createDb])
  | .ok _ =>
    match env.getR with
    | .error e => .error (e, [.createDb, .getDb])
    | .ok none => .error ("db get failed", [.createDb, .getDb])
    | .ok (some _) =>
      match env.updateR with
      | .error e => .error (e, [.createDb, .getDb, .updateDb])
      | .ok _ =>
        match env.deleteR with
        | .error e => .error (e, [.createDb, .getDb, .updateDb, .deleteDb])
        | .ok false =>
          .error ("db delete failed", [.createDb, .getDb, .updateDb, .deleteDb])
        | .ok true => .ok [.createDb, .getDb, .updateDb, .deleteDb]

/-- The relational sequence with its failure boundary. -/
def dbRun (env : DbEnv) : DbSlot × List StOp :=
  match dbBody env with
  | .ok tr => ({ ok := true, id := some env.freshId, error := none }, tr)
  | .error (e, tr) => ({ ok := false, id := none, error := some e }, tr)

/-- Environment of the cache sequence: generated key material, the current
client status (for the lazy-connect guard) and the outcomes of the cache
calls. -/
structure RedisEnv where
  freshId : String
  nowTime : Nat
  status : String
  connectR : Except String Unit
  setR : Except String Unit
  getR : Except String (Option String)
  delR : Except String Nat

/-- `selftest:${randomUUID()}`. -/
def redisTestKey (env : RedisEnv) : String := "selftest:" ++ env.freshId

/-- `hi-${Date.now()}`. -/
def redisTestVal (env : RedisEnv) : String := "hi-" ++ toString env.nowTime

/-- The cache `try` block: connect when the client status is unset or
`end`, set, get back (throwing `redis value mismatch` when the value
differs from what was set), delete (reply unused). -/
def redisBody (env : RedisEnv) : Except (String × List StOp) (List StOp) :=
  match (if env.status == "" || env.status == "end"
         then (env.connectR.map (fun _ => [StOp.connectRedis]))
         else .ok []) with
  | .error e => .error (e, [.connectRedis])
  | .ok tr0 =>
    match env.setR with
    | .error e => .error (e, tr0 ++ [.setRedis])
    | .ok _ =>
      match env.getR with
      | .error e => .error (e, tr0 ++ [.setRedis, .getRedis])
      | .ok got =>
        if got == some (redisTestVal env) then
          match env.delR with
          | .error e => .error (e, tr0 ++ [.setRedis, .getRedis, .delRedis])
          | .ok _ => .ok (tr0 ++ [.setRedis, .getRedis, .delRedis])
        else .error ("redis value mismatch", tr0 ++ [.setRedis, .getRedis])

/-- The cache sequence with its failure boundary. -/
def redisRun (env : RedisEnv) : RedisSlot × List StOp :=
  match redisBody env with
  | .ok tr => ({ ok := true, key := some (redisTestKey env), error := none }, tr)
  | .error (e, tr) => ({ ok := false, key := none, error := some e }, tr)

/-- Environment of a whole self-test invocation: one sub-environment per
backing store. -/
structure SelfTestEnv where
  s3 : S3Env
  db : DbEnv
  redis : RedisEnv

/-- `runSelfTest` from `src/server.ts`: the three sequences run in order —
object storage, then relational, then cache — each behind its own failure
boundary; the fully populated result and the concatenated operation trace
are returned. -/
def runSelfTest (env : SelfTestEnv) : SelfTestResult × List StOp :=
  let s3p := s3Run env.s3
  let dbp := dbRun env.db
  let rdp := redisRun env.redis
  ({ s3 := s3p.1, db := dbp.1, redis := rdp.1 }, s3p.2 ++ dbp.2 ++ rdp.2)

/-- `runSelfTest` viewed as a fallible computation: each sequence body may
throw, but its catch consumes the error, so the only remaining effect is
the returned value. Used to state that no sequence error propagates to the
caller. -/
def runSelfTestE (env : SelfTestEnv) :
    Except String (SelfTestResult × List StOp) := do
  let s3p ←
    if env.s3.bucket == "" then
      pure (({ ok := false, bucket := none, key := none,
               error := some "S3_BUCKET not configured" } : S3Slot),
            ([] : List StOp))
    else
      match s3Body env.s3 with
      | .ok tr =>
        pure ({ ok := true, bucket := some env.s3.bucket,
                key := some (s3TestKey env.s3), error := none }, tr)
      | .error (e, tr) =>
        pure ({ ok := false, bucket := some env.s3.bucket,
                key := some (s3TestKey env.s3), error := some e }, tr)
  let dbp ←
    match dbBody env.db with
    | .ok tr => pure (({ ok := true, id := some env.db.freshId,
                         error := none } : DbSlot), tr)
    | .error (e, tr) => pure (({ ok := false, id := none,
                                 error := some e } : DbSlot), tr)
  let rdp ←
    match redisBody env.redis with
    | .ok tr => pure (({ ok := true, key := some (redisTestKey env.redis),
                         error := none } : RedisSlot), tr)
    | .error (e, tr) => pure (({ ok := false, key := none,
                                 error := some e } : RedisSlot), tr)
  pure ({ s3 := s3p.1, db := dbp.1, redis := rdp.1 }, s3p.2 ++ dbp.2 ++ rdp.2)

/-! ## HTTP handler boundaries (`src/server.ts`)

Each handler is a function from the outcomes of its store calls to what
leaves the handler: either an HTTP response, or an error that escaped the
handler because no `try`/`catch` surrounds the call. The S3 handlers and
`/selftest` have a `try`/`catch`; the `/db` and `/cache` handlers do
not. -/

/-- What leaves an HTTP handler: a response with a status code, or a store
error that escaped the handler uncaught. -/
inductive HandlerOutcome
  | response (status : Nat)
  | escaped (msg : String)
deriving DecidableEq, Repr

/-- Whether a handler outcome is an escaped error. -/
def HandlerOutcome.isEscaped : HandlerOutcome → Bool
  | .escaped _ => true
  | .response _ => false

/-- `POST /s3/:id`: 400 when unconfigured; otherwise `putS3Text` inside a
`try`/`catch` mapping any thrown error to a 500 response. -/
def s3PostHandler (bucket : String) (putR : Except String Unit) :
    HandlerOutcome :=
  if bucket == "" then .response 400
  else
    match putR with
    | .ok _ => .response 200
    | .error _ => .response 500

/-- `GET /s3/:id`: 400 when unconfigured; `getS3Text` never throws, a null
content is a 404, otherwise 200 (the surrounding `try`/`catch` would map a
thrown error to 500). -/
def s3GetHandler (bucket : String) (getRaw : Except String String) :
    HandlerOutcome :=
  if bucket == "" then .response 400
  else
    match getS3Text getRaw with
    | none => .response 404
    | some _ => .response 200

/-- `DELETE /s3/:id`: 400 when unconfigured; otherwise `deleteS3Object`
inside a `try`/`catch` mapping any thrown error to a 500 response. -/
def s3DeleteHandler (bucket : String) (delR : Except String Unit) :
    HandlerOutcome :=
  if bucket == "" then .response 400
  else
    match delR with
    | .ok _ => .response 200
    | .error _ => .response 500

/-- `GET /selftest`: `runSelfTest` inside a `try`/`catch` mapping a thrown
error to a 500 response. -/
def selftestHandler (env : SelfTestEnv) : HandlerOutcome :=
  match runSelfTestE env with
  | .ok _ => .response 200
  | .error _ => .response 500

/-- `POST /db/items`: `createItem` awaited with no `try`/`catch` — a store
error escapes the handler. -/
def dbCreateHandler (createR : Except String Item) : HandlerOutcome :=
  match createR with
  | .ok _ => .response 200
  | .error e => .escaped e

/-- `GET /db/items`: `listItems` awaited with no `try`/`catch`. -/
def dbListHandler (listR : Except String (List Item)) : HandlerOutcome :=
  match listR with
  | .ok _ => .response 200
  | .error e => .escaped e

/-- `GET /db/items/:id`: `getItem` awaited with no `try`/`catch`; a null
row is a 404. -/
def dbGetHandler (getR : Except String (Option Item)) : HandlerOutcome :=
  match getR with
  | .ok none => .response 404
  | .ok (some _) => .response 200
  | .error e => .escaped e

/-- `PUT /db/items/:id`: `updateItem` awaited with no `try`/`catch`; a
null row is a 404. -/
def dbPutHandler (updR : Except String (Option Item)) : HandlerOutcome :=
  match updR with
  | .ok none => .response 404
  | .ok (some _) => .response 200
  | .error e => .escaped e

/-- `DELETE /db/items/:id`: `deleteItem` awaited with no `try`/`catch`. -/
def dbDeleteHandler (delR : Except String Bool) : HandlerOutcome :=
  match delR with
  | .ok _ => .response 200
  | .error e => .escaped e

/-- `POST /cache/:key` (and `PUT`): lazy connect then `redis.set`, neither
behind a `try`/`catch`. -/
def cacheSetHandler (status : String) (connectR setR : Except String Unit) :
    HandlerOutcome :=
  match (if status == "" || status == "end" then connectR else .ok ()) with
  | .error e => .escaped e
  | .ok _ =>
    match setR with
    | .ok _ => .response 200
    | .error e => .escaped e

/-- `GET /cache/:key`: lazy connect then `redis.get`, neither behind a
`try`/`catch`; a null value is a 404. -/
def cacheGetHandler (status : String) (connectR : Except String Unit)
    (getR : Except String (Option String)) : HandlerOutcome :=
  match (if status == "" || status == "end" then connectR else .ok ()) with
  | .error e => .escaped e
  | .ok _ =>
    match getR with
    | .ok none => .response 404
    | .ok (some _) => .response 200
    | .error e => .escaped e

/-- `DELETE /cache/:key`: lazy connect then `redis.del`, neither behind a
`try`/`catch`; responds `{ok: n > 0}`. -/
def cacheDeleteHandler (status : String) (connectR : Except String Unit)
    (delR : Except String Nat) : HandlerOutcome :=
  match (if status == "" || status == "end" then connectR else .ok ()) with
  | .error e => .escaped e
  | .ok _ =>
    match delR with
    | .ok _ => .response 200
    | .error e => .escaped e

/-! ## Startup (`waitForPostgres`, `start`, `src/server.ts` lines 347-395) -/

/-- How the process startup ends: the server runs, or the process exits
with the given code. -/
inductive StartOutcome
  | running
  | exited (code : Nat)
deriving DecidableEq, Repr

/-- `waitForPostgres`: up to 20 attempts of `checkDb` with a fixed delay;
the n-th entry of the list is the n-th probe result. Succeeds when some of
the first 20 probes succeeds. -/
def waitForPostgres (probes : List Bool) : Bool :=
  (probes.take 20).any (fun b => b)

/-- `start` with its `.catch`: an exhausted Postgres wait throws, `migrate`
may throw; either error reaches `start().catch`, which logs and calls
`process.exit(1)`; otherwise the server runs. -/
def startProc (dbProbes : List Bool) (migrateR : Except String Unit) :
    StartOutcome :=
  if waitForPostgres dbProbes then
    match migrateR with
    | .ok _ => .running
    | .error _ => .exited 1
  else .exited 1

/-! ## Theorems -/

/-- C1: for every combination of probe outcomes, `/readyz` returns verdict
`ready` if and only if the database probe succeeds, the cache probe
succeeds, and either object storage is unconfigured (`S3_BUCKET` empty) or
its probe succeeds; in every other case the verdict is `degraded` — in
particular whenever the database probe fails. -/
theorem readyz_verdict (bucket : String) (s3Probe dbOk redisOk : Bool) :
    (readyzStatus bucket s3Probe dbOk redisOk = "ready" ↔
      (dbOk = true ∧ redisOk = true ∧ (bucket = "" ∨ s3Probe = true))) ∧
    (dbOk = false → readyzStatus bucket s3Probe dbOk redisOk = "degraded") ∧
    (readyzStatus bucket s3Probe dbOk redisOk = "ready" ∨
      readyzStatus bucket s3Probe dbOk redisOk = "degraded") := by
  cases dbOk <;> cases redisOk <;> cases s3Probe <;>
    by_cases hb : bucket = "" <;>
    simp [readyzStatus, hb]

/-- Witness for `readyz_verdict`: a failing database probe gives verdict
`degraded` even with the other two stores healthy. -/
theorem readyz_verdict_witness :
    readyzStatus "demo-bucket" true false true = "degraded" :=
  (readyz_verdict "demo-bucket" true false true).2.1 rfl

/-- C3: the code at the failing input. A protected request (here
`GET /selftest`) carrying no credential at all — no `Authorization` header
and no `token` query parameter — is rejected with 401 by `authMiddleware`,
whereas the spec and the repository README state that such a request is
treated as the implicitly-authenticated default identity `loftwah` and
proceeds. -/
theorem authMiddleware_rejects_credentialless :
    authMiddleware { secret := "hunter2", readyzPublic := false }
      { method := "GET", path := "/selftest", authHeader := none,
        queryToken := none } = .unauthorized := by
  rfl

/-- The header block authorizes exactly a matching bearer credential or a
matching basic-style credential: the `else if` chain of `headerAuth`
flattens to the disjunction because a `Bearer `-prefixed header never
reaches the colon branch. -/
theorem headerAuth_fst (secret h : String) :
    (headerAuth secret h).1 =
      (matchesBearer secret h || matchesBasic secret h) := by
  unfold headerAuth matchesBearer matchesBasic
  by_cases hh : h = ""
  · subst hh
    have h1 : (jsStartsWith "" "Bearer ") = false := by decide
    have h2 : (jsContainsChar "" ':') = false := by decide
    simp [h1, h2]
  · cases hbw : jsStartsWith h "Bearer "
    · cases hc : jsContainsChar h ':'
      · simp [hh, hbw, hc]
      · cases hsec : ((splitAtLastColon h).2 == secret) <;>
          simp [hh, hbw, hc, hsec]
    · simp [hh, hbw]

/-- C10: for every protected request, supplying the configured shared
secret as `?token=` authorizes the request with the default identity; the
outcome is independent of whatever `Authorization` header accompanies it
(the query parameter is checked first); and a matching bearer credential
on an otherwise tokenless request yields exactly the same outcome. -/
theorem query_token_authorizes (cfg : AuthConfig) (req : Request)
    (hnp : isPublicPath cfg req.method req.path = false)
    (hq : req.queryToken = some cfg.secret)
    (hs : cfg.secret ≠ "") :
    authMiddleware cfg req = .allowed AUTH_DEFAULT_USER ∧
    (∀ h, authMiddleware cfg { req with authHeader := h } =
      authMiddleware cfg req) ∧
    (∀ m p hdr, isPublicPath cfg m p = false →
      matchesBearer cfg.secret hdr = true →
      authMiddleware cfg
          { method := m, path := p, authHeader := some hdr,
            queryToken := none } = .allowed AUTH_DEFAULT_USER) := by
  refine ⟨?_, ?_, ?_⟩
  · simp [authMiddleware, hnp, hq, normalizeQueryToken, hs]
  · intro h
    simp [authMiddleware, hnp, hq, normalizeQueryToken, hs]
  · intro m p hdr hnp2 hbear
    by_cases hh : hdr = ""
    · subst hh
      have h1 : (jsStartsWith "" "Bearer ") = false := by decide
      simp [matchesBearer, h1] at hbear
    · simp only [matchesBearer, Bool.and_eq_true, beq_iff_eq] at hbear
      obtain ⟨h1, h2⟩ := hbear
      simp [authMiddleware, hnp2, normalizeQueryToken, headerAuth, hh, h1, h2]

/-- Witness for `query_token_authorizes`: `GET /db/items?token=hunter2`
with no header is authorized as `loftwah` under the default secret. -/
theorem query_token_authorizes_witness :
    authMiddleware { secret := "hunter2", readyzPublic := false }
      { method := "GET", path := "/db/items", authHeader := none,
        queryToken := some "hunter2" } = .allowed AUTH_DEFAULT_USER :=
  (query_token_authorizes { secret := "hunter2", readyzPublic := false }
    { method := "GET", path := "/db/items", authHeader := none,
      queryToken := some "hunter2" } (by decide) rfl (by decide)).1

/-- C4 counterexample: with configured secret `s3cret!`, the request
`GET /db/items?token=s3cret!` carrying no `Authorization` header is
accepted by the gate, yet it presents no bearer credential, no basic-style
credential and no demo token, so the acceptance set the claim describes
excludes it; conversely `Authorization: Bearer demo` — the hardcoded demo
token the claim (and the repository README) admits — is rejected with
401. -/
theorem auth_gate_claim_counterexample :
    authMiddleware { secret := "s3cret!", readyzPublic := false }
      { method := "GET", path := "/db/items", authHeader := none,
        queryToken := some "s3cret!" } = .allowed "loftwah" ∧
    specAuthAccepts "s3cret!"
      { method := "GET", path := "/db/items", authHeader := none,
        queryToken := some "s3cret!" } = false ∧
    authMiddleware { secret := "s3cret!", readyzPublic := false }
      { method := "GET", path := "/db/items",
        authHeader := some "Bearer demo", queryToken := none } =
      .unauthorized ∧
    specAuthAccepts "s3cret!"
      { method := "GET", path := "/db/items",
        authHeader := some "Bearer demo", queryToken := none } = true := by
  refine ⟨by decide, by decide, by decide, by decide⟩

/-- C4 amended: for every protected request, the authentication gate
accepts exactly those requests whose `token` query parameter, bearer
token, or basic-style (`user:secret`) credential matches the single
configured shared secret; every other request — including one with no
credential at all, and regardless of any hardcoded demo token — is
rejected with an unauthorized (401) error. -/
theorem auth_gate_accepts_iff (cfg : AuthConfig) (req : Request)
    (hnp : isPublicPath cfg req.method req.path = false) :
    ((∃ u, authMiddleware cfg req = .allowed u) ↔
      acceptedCred cfg.secret req = true) ∧
    (acceptedCred cfg.secret req = false →
      authMiddleware cfg req = .unauthorized) := by
  unfold authMiddleware acceptedCred matchesQuery
  cases hq : normalizeQueryToken req.queryToken with
  | none =>
    cases hh : req.authHeader with
    | none => simp [hnp]
    | some h =>
      cases hba : (headerAuth cfg.secret h).1 with
      | false =>
        have := headerAuth_fst cfg.secret h
        rw [hba] at this
        simp [hnp, hba, ← this]
      | true =>
        have := headerAuth_fst cfg.secret h
        rw [hba] at this
        simp [hnp, hba, ← this]
  | some t =>
    cases htq : (t == cfg.secret) with
    | false =>
      cases hh : req.authHeader with
      | none => simp [hnp, htq]
      | some h =>
        cases hba : (headerAuth cfg.secret h).1 with
        | false =>
          have := headerAuth_fst cfg.secret h
          rw [hba] at this
          simp [hnp, htq, hba, ← this]
        | true =>
          have := headerAuth_fst cfg.secret h
          rw [hba] at this
          simp [hnp, htq, hba, ← this]
    | true => simp [hnp, htq]

/-- Witness for `auth_gate_accepts_iff`: a basic-style credential
`alice:hunter2` is accepted under the default secret. -/
theorem auth_gate_accepts_iff_witness :
    (∃ u, authMiddleware { secret := "hunter2", readyzPublic := false }
      { method := "POST", path := "/db/items",
        authHeader := some "alice:hunter2", queryToken := none } =
        .allowed u) :=
  ((auth_gate_accepts_iff { secret := "hunter2", readyzPublic := false }
    { method := "POST", path := "/db/items",
      authHeader := some "alice:hunter2", queryToken := none }
    (by decide)).1).mpr (by decide)

/-- C8: each of the three liveness probes is total and never throws — for
every behaviour of the underlying store client it returns an `ok` boolean,
and whenever a client call inside the probe throws, the probe returns
`false`. -/
theorem probes_never_throw (send connect query rConnect : Except String Unit)
    (status : String) (ping : Except String String) :
    (∃ b, checkS3 send = .ok b) ∧
    (∃ b, checkDb connect query = .ok b) ∧
    (∃ b, checkRedis status rConnect ping = .ok b) ∧
    (∀ e, send = .error e → checkS3 send = .ok false) ∧
    (∀ e, connect = .error e → checkDb connect query = .ok false) ∧
    (∀ e, query = .error e → checkDb connect query = .ok false) ∧
    (∀ e, ping = .error e → checkRedis status rConnect ping = .ok false) ∧
    (∀ e, (status = "" ∨ status = "end") → rConnect = .error e →
      checkRedis status rConnect ping = .ok false) := by
  refine ⟨?_, ?_, ?_, ?_, ?_, ?_, ?_, ?_⟩
  · cases send <;> simp [checkS3, checkS3Body]
  · cases connect <;> cases query <;> simp [checkDb, checkDbBody]
  · unfold checkRedis checkRedisBody
    cases hc : (if status == "" || status == "end" then rConnect else .ok ()) <;>
      cases ping <;> simp
  · intro e he; subst he; simp [checkS3, checkS3Body]
  · intro e he; subst he; simp [checkDb, checkDbBody]
  · intro e he; cases connect <;> subst he <;> simp [checkDb, checkDbBody]
  · intro e he
    unfold checkRedis checkRedisBody
    cases hc : (if status == "" || status == "end" then rConnect else .ok ()) <;>
      subst he <;> simp
  · intro e hst he
    have hcond : (status == "" || status == "end") = true := by
      rcases hst with h | h <;> subst h <;> simp
    unfold checkRedis checkRedisBody
    rw [hcond]
    subst he
    simp

/-- Witness for `probes_never_throw`: a throwing database client makes
`checkDb` report `false` without raising. -/
theorem probes_never_throw_witness :
    checkDb (.error "connection refused") (.ok ()) = .ok false :=
  (probes_never_throw (.ok ()) (.error "connection refused") (.ok ())
    (.ok ()) "ready" (.ok "PONG")).2.2.2.2.1 "connection refused" rfl

/-- C7: deleting a nonexistent entry reports failure without error — for
every id absent from the items table `deleteItem` returns `false` (so
`DELETE /db/items/:id` responds `{ok:false}`), for every key absent from
the cache `DELETE /cache/:key` responds `{ok:false}`, and deleting an
existing entry responds `{ok:true}` in both stores. -/
theorem delete_nonexistent_reports_false (idv k : String)
    (table : List Item) (cache : List (String × String)) :
    ((∀ r ∈ table, r.id ≠ idv) → (deleteItem idv table).2 = false ∧
      dbDeleteRespOk idv table = false) ∧
    ((∀ e ∈ cache, e.1 ≠ k) → cacheDeleteRespOk k cache = false) ∧
    (∀ r ∈ table, r.id = idv → (deleteItem idv table).2 = true ∧
      dbDeleteRespOk idv table = true) ∧
    (∀ e ∈ cache, e.1 = k → cacheDeleteRespOk k cache = true) := by
  refine ⟨?_, ?_, ?_, ?_⟩
  · intro habs
    have hcnt : table.countP (fun r => r.id == idv) = 0 := by
      rw [List.countP_eq_zero]
      intro r hr
      simp [habs r hr]
    constructor <;> simp [deleteItem, dbDeleteRespOk, hcnt]
  · intro habs
    have hcnt : cache.countP (fun e => e.1 == k) = 0 := by
      rw [List.countP_eq_zero]
      intro e he
      simp [habs e he]
    simp [cacheDeleteRespOk, redisDelCount, hcnt]
  · intro r hr hid
    have hcnt : 0 < table.countP (fun x => x.id == idv) := by
      apply List.countP_pos_iff.mpr
      exact ⟨r, hr, by simp [hid]⟩
    constructor <;> simp [deleteItem, dbDeleteRespOk, hcnt]
  · intro e he hk
    have hcnt : 0 < cache.countP (fun x => x.1 == k) := by
      apply List.countP_pos_iff.mpr
      exact ⟨e, he, by simp [hk]⟩
    simp [cacheDeleteRespOk, redisDelCount, hcnt]

/-- A sample `items` row used by concrete witnesses. -/
def bananaRow : Item :=
  { id := "banana-id", name := "banana", value := "tasty", created_at := 5 }

/-- Witness for `delete_nonexistent_reports_false`: on a table holding one
row `banana` and a cache holding one key `greeting`, deleting the missing
id `zzz` reports `false`, deleting the missing key `nope` reports `false`,
and deleting the present row and key report `true`. -/
theorem delete_nonexistent_reports_false_witness :
    ((deleteItem "zzz" [bananaRow]).2 = false) ∧
    (cacheDeleteRespOk "nope" [("greeting", "hello")] = false) ∧
    ((deleteItem "banana-id" [bananaRow]).2 = true) ∧
    (cacheDeleteRespOk "greeting" [("greeting", "hello")] = true) := by
  have h := delete_nonexistent_reports_false "zzz" "nope"
    [bananaRow] [("greeting", "hello")]
  have h2 := delete_nonexistent_reports_false "banana-id" "greeting"
    [bananaRow] [("greeting", "hello")]
  refine ⟨(h.1 (by decide)).1, h.2.1 (by decide), ?_, ?_⟩
  · exact (h2.2.2.1 bananaRow (by simp) (by decide)).1
  · exact h2.2.2.2 ("greeting", "hello") (by simp) rfl

/-- C9: update does not touch identity or creation time — `updateItem`
leaves every row's `id` and `created_at` unchanged (modifying only `name`
and `value`), the row it returns keeps the `id` and `created_at` of the
matched row, and `createItem` assigns `id` and the server-side
`created_at` exactly once, at creation. -/
theorem update_preserves_id_and_created_at
    (idv namev valuev : String) (now : Nat) (table : List Item) (i : Nat) :
    (((updateItem idv namev valuev table).1[i]?).map Item.id =
      (table[i]?).map Item.id) ∧
    (((updateItem idv namev valuev table).1[i]?).map Item.created_at =
      (table[i]?).map Item.created_at) ∧
    (((updateItem idv namev valuev table).2).map Item.id =
      (getItem idv table).map Item.id) ∧
    (((updateItem idv namev valuev table).2).map Item.created_at =
      (getItem idv table).map Item.created_at) ∧
    ((updateItem idv namev valuev table).1.length = table.length) ∧
    ((createItem idv namev valuev now table).2.id = idv) ∧
    ((createItem idv namev valuev now table).2.created_at = now) := by
  refine ⟨?_, ?_, ?_, ?_, ?_, rfl, rfl⟩
  · simp only [updateItem, List.getElem?_map, Option.map_map]
    cases table[i]? with
    | none => rfl
    | some r =>
      by_cases hr : r.id = idv <;> simp [Function.comp, hr]
  · simp only [updateItem, List.getElem?_map, Option.map_map]
    cases table[i]? with
    | none => rfl
    | some r =>
      by_cases hr : r.id = idv <;> simp [Function.comp, hr]
  · simp only [updateItem, getItem, Option.map_map]
    cases table.find? (fun r => r.id == idv) with
    | none => rfl
    | some r => rfl
  · simp only [updateItem, getItem, Option.map_map]
    cases table.find? (fun r => r.id == idv) with
    | none => rfl
    | some r => rfl
  · simp [updateItem]

/-- The fallible view of the self-test always returns: every sequence
error is consumed by its own catch, so `runSelfTestE` is `.ok` of the
total `runSelfTest` on every environment. -/
theorem runSelfTestE_eq (env : SelfTestEnv) :
    runSelfTestE env = .ok (runSelfTest env) := by
  unfold runSelfTestE runSelfTest s3Run dbRun redisRun
  cases hb : (env.s3.bucket == "") <;>
    rcases h1 : s3Body env.s3 with tr1 | ⟨e1, t1⟩ <;>
    rcases h2 : dbBody env.db with tr2 | ⟨e2, t2⟩ <;>
    rcases h3 : redisBody env.redis with tr3 | ⟨e3, t3⟩ <;>
    simp [hb, h1, h2, h3, bind, Except.bind, pure, Except.pure]

/-- C2: each of the three self-test sequences — object storage, then
relational, then cache, in that order — runs behind its own failure
boundary: an error raised inside a sequence is caught locally and recorded
in its slot as `ok:false` with the error message, each slot is computed by
its own sequence independently of the other two, the trace is the three
sequences' traces in execution order, and the overall call returns a fully
populated result without ever propagating a sequence error. -/
theorem selftest_failure_boundaries (env : SelfTestEnv) :
    (runSelfTestE env = .ok (runSelfTest env)) ∧
    ((runSelfTest env).1.s3 = (s3Run env.s3).1 ∧
      (runSelfTest env).1.db = (dbRun env.db).1 ∧
      (runSelfTest env).1.redis = (redisRun env.redis).1) ∧
    ((runSelfTest env).2 =
      (s3Run env.s3).2 ++ (dbRun env.db).2 ++ (redisRun env.redis).2) ∧
    (∀ e tr, env.s3.bucket ≠ "" → s3Body env.s3 = .error (e, tr) →
      (runSelfTest env).1.s3 =
        { ok := false, bucket := some env.s3.bucket,
          key := some (s3TestKey env.s3), error := some e }) ∧
    (∀ e tr, dbBody env.db = .error (e, tr) →
      (runSelfTest env).1.db =
        { ok := false, id := none, error := some e }) ∧
    (∀ e tr, redisBody env.redis = .error (e, tr) →
      (runSelfTest env).1.redis =
        { ok := false, key := none, error := some e }) := by
  refine ⟨runSelfTestE_eq env, ⟨rfl, rfl, rfl⟩, rfl, ?_, ?_, ?_⟩
  · intro e tr hb herr
    simp [runSelfTest, s3Run, hb, herr]
  · intro e tr herr
    simp [runSelfTest, dbRun, herr]
  · intro e tr herr
    simp [runSelfTest, redisRun, herr]

/-- S3 environment for witnesses: configured bucket, healthy store. -/
def s3EnvOk : S3Env :=
  { bucket := "demo-bucket", keyTime := 3, isoTime := "t3",
    putR := .ok (), getRaw := .ok "hello from loftwah selftest t3",
    delR := .ok () }

/-- S3 environment for witnesses: `S3_BUCKET` unset. -/
def s3EnvOff : S3Env :=
  { bucket := "", keyTime := 0, isoTime := "t0", putR := .ok (),
    getRaw := .ok "x", delR := .ok () }

/-- Relational environment for witnesses: healthy store. -/
def dbEnvOk : DbEnv :=
  { freshId := "id-1", createR := .ok bananaRow,
    getR := .ok (some bananaRow), updateR := .ok (some bananaRow),
    deleteR := .ok true }

/-- Relational environment for witnesses: the create call throws. -/
def dbEnvDown : DbEnv :=
  { freshId := "id-2", createR := .error "db down",
    getR := .ok (some bananaRow), updateR := .ok (some bananaRow),
    deleteR := .ok true }

/-- Cache environment for witnesses: healthy store, connected client. -/
def redisEnvOk : RedisEnv :=
  { freshId := "r-1", nowTime := 7, status := "ready", connectR := .ok (),
    setR := .ok (), getR := .ok (some "hi-7"), delR := .ok 1 }

/-- Witness for `selftest_failure_boundaries`: with a healthy S3 and
cache but a throwing database client, the db slot records the caught
error while the s3 and redis slots are their own sequences' results. -/
theorem selftest_failure_boundaries_witness :
    (runSelfTest { s3 := s3EnvOk, db := dbEnvDown, redis := redisEnvOk }).1.db =
      { ok := false, id := none, error := some "db down" } ∧
    (runSelfTest { s3 := s3EnvOk, db := dbEnvDown, redis := redisEnvOk }).1.s3 =
      (s3Run s3EnvOk).1 := by
  have h := selftest_failure_boundaries
    { s3 := s3EnvOk, db := dbEnvDown, redis := redisEnvOk }
  exact ⟨h.2.2.2.2.1 "db down" [.createDb] rfl, h.2.1.1⟩

/-- C6: when object storage is not configured (`S3_BUCKET` empty) the S3
sequence of the self-test is skipped entirely — its trace is empty and the
whole trace is just the relational and cache sequences in order — while
the s3 slot is exactly `ok:false` with error `S3_BUCKET not configured`,
and the db and redis slots are still produced by actually running their
sequences. -/
theorem selftest_s3_unconfigured (env : SelfTestEnv)
    (hb : env.s3.bucket = "") :
    ((runSelfTest env).1.s3 =
      { ok := false, bucket := none, key := none,
        error := some "S3_BUCKET not configured" }) ∧
    ((s3Run env.s3).2 = []) ∧
    ((runSelfTest env).2 = (dbRun env.db).2 ++ (redisRun env.redis).2) ∧
    ((runSelfTest env).1.db = (dbRun env.db).1) ∧
    ((runSelfTest env).1.redis = (redisRun env.redis).1) := by
  refine ⟨?_, ?_, ?_, rfl, rfl⟩
  · simp [runSelfTest, s3Run, hb]
  · simp [s3Run, hb]
  · simp [runSelfTest, s3Run, hb]

/-- Witness for `selftest_s3_unconfigured`: with the bucket unset and
healthy database and cache, the s3 slot is the configuration-missing
failure and the db and redis slots are their sequences' (successful)
results. -/
theorem selftest_s3_unconfigured_witness :
    ((runSelfTest { s3 := s3EnvOff, db := dbEnvOk, redis := redisEnvOk }).1.s3 =
      { ok := false, bucket := none, key := none,
        error := some "S3_BUCKET not configured" }) ∧
    ((runSelfTest { s3 := s3EnvOff, db := dbEnvOk, redis := redisEnvOk }).1.db =
      (dbRun dbEnvOk).1) := by
  have h := selftest_s3_unconfigured
    { s3 := s3EnvOff, db := dbEnvOk, redis := redisEnvOk } rfl
  exact ⟨h.1, h.2.2.2.1⟩

/-- C5 counterexample: a backing-store error inside the `POST /db/items`
handler is not caught at the handler boundary — `createItem` is awaited
with no `try`/`catch`, so the store error escapes the handler instead of
becoming a structured response. -/
theorem db_handler_error_escapes :
    dbCreateHandler (.error "connection refused") =
      .escaped "connection refused" := rfl

/-- C5 amended: the S3 handlers and the `/selftest` handler convert every
backing-store error into a structured response, and the startup dependency
failure is the only process exit and carries the non-zero code 1; every
`/db` handler (create, list, get, update, delete) and every `/cache`
handler (set, get, delete — including the lazy reconnect preceding each)
however has no failure boundary: a backing-store error raised there
escapes the handler uncaught, verbatim. -/
theorem handler_boundaries (bucket : String) (putR delR : Except String Unit)
    (getRaw : Except String String) (env : SelfTestEnv)
    (createR : Except String Item) (listR : Except String (List Item))
    (getOR updOR : Except String (Option Item)) (delBR : Except String Bool)
    (status : String) (connectR setR : Except String Unit)
    (cGetR : Except String (Option String)) (cDelR : Except String Nat)
    (dbProbes : List Bool) (migrateR : Except String Unit) :
    ((s3PostHandler bucket putR).isEscaped = false) ∧
    ((s3GetHandler bucket getRaw).isEscaped = false) ∧
    ((s3DeleteHandler bucket delR).isEscaped = false) ∧
    (selftestHandler env = .response 200) ∧
    (∀ e, createR = .error e → dbCreateHandler createR = .escaped e) ∧
    (∀ e, listR = .error e → dbListHandler listR = .escaped e) ∧
    (∀ e, getOR = .error e → dbGetHandler getOR = .escaped e) ∧
    (∀ e, updOR = .error e → dbPutHandler updOR = .escaped e) ∧
    (∀ e, delBR = .error e → dbDeleteHandler delBR = .escaped e) ∧
    (∀ e, setR = .error e →
      cacheSetHandler "ready" connectR setR = .escaped e) ∧
    (∀ e, cGetR = .error e →
      cacheGetHandler "ready" connectR cGetR = .escaped e) ∧
    (∀ e, cDelR = .error e →
      cacheDeleteHandler "ready" connectR cDelR = .escaped e) ∧
    (∀ e, (status = "" ∨ status = "end") → connectR = .error e →
      cacheSetHandler status connectR setR = .escaped e ∧
      cacheGetHandler status connectR cGetR = .escaped e ∧
      cacheDeleteHandler status connectR cDelR = .escaped e) ∧
    (startProc dbProbes migrateR = .running ∨
      startProc dbProbes migrateR = .exited 1) ∧
    (waitForPostgres dbProbes = false →
      startProc dbProbes migrateR = .exited 1) := by
  refine ⟨?_, ?_, ?_, ?_, ?_, ?_, ?_, ?_, ?_, ?_, ?_, ?_, ?_, ?_, ?_⟩
  · cases hbk : (bucket == "") <;> cases putR <;>
      simp [s3PostHandler, HandlerOutcome.isEscaped, hbk]
  · cases hbk : (bucket == "") <;> cases getRaw <;>
      simp [s3GetHandler, getS3Text, HandlerOutcome.isEscaped, hbk]
  · cases hbk : (bucket == "") <;> cases delR <;>
      simp [s3DeleteHandler, HandlerOutcome.isEscaped, hbk]
  · simp [selftestHandler, runSelfTestE_eq env]
  · intro e he; subst he; rfl
  · intro e he; subst he; rfl
  · intro e he; subst he; rfl
  · intro e he; subst he; rfl
  · intro e he; subst he; rfl
  · intro e he; subst he; rfl
  · intro e he; subst he; rfl
  · intro e he; subst he; rfl
  · intro e hst he
    have hcond : (status == "" || status == "end") = true := by
      rcases hst with h | h <;> subst h <;> simp
    subst he
    refine ⟨?_, ?_, ?_⟩ <;>
      simp [cacheSetHandler, cacheGetHandler, cacheDeleteHandler, hcond]
  · unfold startProc
    cases hw : waitForPostgres dbProbes <;> cases migrateR <;> simp
  · intro hw
    cases migrateR <;> simp [startProc, hw]

/-- Witness for `handler_boundaries`: the `/selftest` handler responds 200
on a concrete environment; a throwing `getItem` escapes `GET
/db/items/:id`; a throwing `redis.set` escapes `POST /cache/:key`; a
throwing lazy reconnect escapes `DELETE /cache/:key`; and an exhausted
Postgres wait exits the process with code 1. -/
theorem handler_boundaries_witness :
    (selftestHandler { s3 := s3EnvOk, db := dbEnvOk, redis := redisEnvOk } =
      .response 200) ∧
    (dbGetHandler (.error "db down") = .escaped "db down") ∧
    (cacheSetHandler "ready" (.error "connect failed") (.error "redis gone") =
      .escaped "redis gone") ∧
    (cacheDeleteHandler "" (.error "connect failed") (.ok 1) =
      .escaped "connect failed") ∧
    (startProc [false] (.ok ()) = .exited 1) := by
  have h := handler_boundaries "demo-bucket" (.ok ()) (.ok ()) (.ok "x")
    { s3 := s3EnvOk, db := dbEnvOk, redis := redisEnvOk }
    (.ok bananaRow) (.ok []) (.error "db down") (.ok none) (.ok true)
    "" (.error "connect failed") (.error "redis gone") (.ok (some "v"))
    (.ok 1) [false] (.ok ())
  refine ⟨h.2.2.2.1, ?_, ?_, ?_, ?_⟩
  · exact h.2.2.2.2.2.2.1 "db down" rfl
  · exact h.2.2.2.2.2.2.2.2.2.1 "redis gone" rfl
  · exact (h.2.2.2.2.2.2.2.2.2.2.2.2.1 "connect failed" (Or.inl rfl) rfl).2.2
  · exact h.2.2.2.2.2.2.2.2.2.2.2.2.2.2 rfl

end DemoNodeApp
